import Mathlib

/-!
Shallow embedding of the staged AI-planning pipeline of this repository
(src/ai_service.py and src/command_service.py), together with theorems
settling the frozen specification claims.

Modelling conventions:
* JSON values produced by the model (after json.loads) are the inductive
  type Json below; Python dict values are association lists in insertion
  order (the code never builds duplicate keys).
* Python truthiness is Json.truthy; the idiom a or b is pyOr.
* Numbers are rationals: every numeric literal and comparison in the
  source (0.3, 0.5, 0.8, confidence clamping) is decimal-exact, so no
  claim hinges on binary floating-point rounding.
* Attribute errors raised by .get on a non-dict value are modelled with
  Except Unit; the orchestrator catches them, as the source does.
* A model invocation that returns null is the value none; a stage input
  is the Option Json result of _safe_json_loads on the raw model text
  (none covers both a null reply and unparseable output, which the
  source collapses to the same default path).
-/

namespace PlanZada

/-- JSON values as produced by json.loads on model output. -/
inductive Json where
  | null : Json
  | bool : Bool → Json
  | num : ℚ → Json
  | str : String → Json
  | arr : List Json → Json
  | obj : List (String × Json) → Json

/-- Python truthiness of a JSON value. -/
def Json.truthy : Json → Bool
  | .null => false
  | .bool b => b
  | .num q => decide (q ≠ 0)
  | .str s => decide (s ≠ "")
  | .arr xs => !xs.isEmpty
  | .obj fs => !fs.isEmpty

/-- dict.get(key) on an association list: none when the key is missing. -/
def dictGet : List (String × Json) → String → Option Json
  | [], _ => none
  | (k, v) :: fs, key => if k = key then some v else dictGet fs key

/-- dict.get(key) with the missing-key result collapsed to JSON null,
matching Python where dict.get returns None for a missing key. -/
def dictGetN (fs : List (String × Json)) (key : String) : Json :=
  (dictGet fs key).getD Json.null

/-- dict[key] = value on an association list: replace in place when the
key exists, append otherwise (Python dict insertion order). -/
def dictSet (fs : List (String × Json)) (key : String) (v : Json) :
    List (String × Json) :=
  if fs.any (fun p => p.1 = key) then
    fs.map (fun p => if p.1 = key then (key, v) else p)
  else fs ++ [(key, v)]

/-- The Python idiom a or b on JSON values. -/
def pyOr (a b : Json) : Json := if a.truthy then a else b

/-- Python equality of a JSON value against a string literal: only a JSON
string with the same characters compares equal. -/
def Json.eqStr : Json → String → Bool
  | .str t, s => decide (t = s)
  | _, _ => false

/-- Value of a list of decimal digit characters, none on a non-digit. -/
def digitsVal? (cs : List Char) : Option ℕ :=
  cs.foldl
    (fun acc c =>
      acc.bind fun n => if c.isDigit then some (n * 10 + (c.toNat - 48)) else none)
    (some 0)

/-- Python float(string) for plain decimal forms: optional sign, integer
digits, optional fractional digits, at least one digit overall.  Exponent,
infinity, nan and underscore forms never arise in this code base and are
treated as parse failures. -/
def parseDecimal? (s : String) : Option ℚ :=
  let unsigned (cs : List Char) : Option ℚ :=
    let intPart := cs.takeWhile Char.isDigit
    let rest := cs.dropWhile Char.isDigit
    match rest with
    | [] =>
      if intPart.isEmpty then none
      else (digitsVal? intPart).map fun n => (n : ℚ)
    | dot :: frac =>
      if dot = '.' ∧ frac.all Char.isDigit ∧ ¬(intPart.isEmpty ∧ frac.isEmpty) then
        match digitsVal? intPart, digitsVal? frac with
        | some i, some f => some ((i : ℚ) + (f : ℚ) / ((10 : ℚ) ^ frac.length))
        | _, _ => none
      else none
  match s.data with
  | '-' :: cs => (unsigned cs).map Neg.neg
  | '+' :: cs => unsigned cs
  | cs => unsigned cs

/-- Python float(value): numbers are themselves, booleans are 0/1,
strings are parsed as decimals, everything else raises (none). -/
def pyFloat? : Json → Option ℚ
  | .num q => some q
  | .bool b => some (if b then 1 else 0)
  | .str s => parseDecimal? s
  | _ => none

/-- _coerce_confidence from src/ai_service.py: float() the value, falling
back to the default on TypeError/ValueError, then clamp into [0, 1]. -/
def coerce_confidence (value : Json) (default : ℚ) : ℚ :=
  let result := (pyFloat? value).getD default
  max 0 (min 1 result)

/-- Python s[:n] for a non-negative n (character slicing). -/
def pyTake (s : String) (n : ℕ) : String := ⟨s.data.take n⟩

/-- Python s[i:] for an arbitrary integer i: a negative start counts from
the end of the string and clamps at 0. -/
def pySuffixFrom (s : String) (i : ℤ) : String :=
  if i < 0 then ⟨s.data.drop ((s.data.length + i).toNat)⟩
  else ⟨s.data.drop i.toNat⟩

/-- truncate_text from src/ai_service.py.  When the text exceeds the
budget it keeps a head and a tail joined by a five-character separator;
the arithmetic on the fallback branch is signed, exactly as in Python. -/
def truncate_text (text : String) (max_chars : ℕ) : String :=
  if text.length ≤ max_chars then text
  else
    let separator := "\n...\n"
    let tail_len0 : ℤ := min 1000 ((max_chars / 3 : ℕ) : ℤ)
    let head_len0 : ℤ := (max_chars : ℤ) - tail_len0 - 5
    let pair : ℤ × ℤ :=
      if head_len0 ≤ 0 then
        (((max_chars / 2 : ℕ) : ℤ), (max_chars : ℤ) - ((max_chars / 2 : ℕ) : ℤ) - 5)
      else (head_len0, tail_len0)
    pyTake text pair.1.toNat ++ separator ++ pySuffixFrom text (-pair.2)

/-! ## Model Gateway: _normalize_finish_reason, _sync_call, _call_model -/

/-- A raw finish_reason value on a model candidate: the vendor library may
hand back an integer code, a string, or an enum (its .name, a string). -/
inductive FinishVal where
  | int : ℤ → FinishVal
  | str : String → FinishVal

/-- Python str.upper, character by character (the finish reasons this is
applied to are ASCII). -/
def pyUpper (s : String) : String := ⟨s.data.map Char.toUpper⟩

/-- Left-to-right removal of every occurrence of a pattern, the effect of
Python s.replace(pattern, "").  Fuel-structured so the kernel can
evaluate it; the fuel is the input length, enough for a non-empty
pattern since every step consumes at least one character. -/
def pyRemoveAllAux (pattern : List Char) : ℕ → List Char → List Char
  | _, [] => []
  | 0, l => l
  | fuel + 1, c :: rest =>
    if pattern.isPrefixOf (c :: rest) then
      pyRemoveAllAux pattern fuel ((c :: rest).drop pattern.length)
    else c :: pyRemoveAllAux pattern fuel rest

/-- Python s.replace(pattern, "") for a non-empty pattern (an empty
pattern leaves the string unchanged, which never arises here). -/
def pyRemoveAll (s pattern : String) : String :=
  if pattern.data.isEmpty then s
  else ⟨pyRemoveAllAux pattern.data s.data.length s.data⟩

/-- The string-normalisation half of _normalize_finish_reason: upper-case,
strip every occurrence of the vendor marker, then apply the alias table. -/
def normalizeFinishString (s : String) : String :=
  let normalized := pyRemoveAll (pyUpper s) "FINISH_REASON_"
  if normalized = "BLOCKED" then "BLOCKLIST"
  else if normalized = "BLOCKLIST_BLOCK" then "BLOCKLIST"
  else if normalized = "PROHIBITED" then "PROHIBITED_CONTENT"
  else if normalized = "PROHIBITED_CONTENT" then "PROHIBITED_CONTENT"
  else if normalized = "CONTENT_FILTERED" then "BLOCKLIST"
  else normalized

/-- _normalize_finish_reason from src/ai_service.py: None maps to NONE,
the small integer code table maps known codes (unknown codes go through
str), and strings are normalised through the alias table. -/
def normalizeFinishReason : Option FinishVal → String
  | none => "NONE"
  | some (.int n) =>
    normalizeFinishString
      (if n = 0 then "OTHER"
       else if n = 1 then "STOP"
       else if n = 2 then "MAX_TOKENS"
       else if n = 3 then "SAFETY"
       else if n = 4 then "RECITATION"
       else toString n)
  | some (.str s) => normalizeFinishString s

/-- One candidate of a model response: its raw finish_reason (none when
the attribute is absent) and the .text of each of its content parts
(none for a part without the attribute). -/
structure Candidate where
  finish_reason : Option FinishVal
  parts : List (Option String)

/-- A model response as _sync_call consumes it: the ordered candidate
list and the behaviour of the response.text accessor, which may raise
(error), return None, or return a string. -/
structure GenResponse where
  candidates : List Candidate
  text : Except Unit (Option String)

/-- finish_reason strings on which candidate text must not be used. -/
def blockedReasons : List String :=
  ["SAFETY", "BLOCKLIST", "PROHIBITED_CONTENT", "SPII", "OTHER", "RECITATION"]

/-- _sync_call from src/ai_service.py, parameterised by the outcome of the
single underlying generate_content call (error models both a model
initialisation failure and an exception from the call itself).  Returns
the recovered text (none for the null result) together with the
normalised finish_reason recorded in the meta dictionary. -/
def syncCall (callResult : Except Unit GenResponse) : Option String × String :=
  match callResult with
  | .error _ => (none, "NONE")
  | .ok response =>
    let candidates := response.candidates
    let finish_reason :=
      normalizeFinishReason (candidates.head?.bind Candidate.finish_reason)
    match response.text with
    | .ok (some t) =>
      if t ≠ "" then (some t, finish_reason)
      else syncCallNoDirectText candidates finish_reason
    | _ => syncCallNoDirectText candidates finish_reason
where
  /-- The candidate-inspection path taken when response.text raised or was
  falsy. -/
  syncCallNoDirectText (candidates : List Candidate) (finish_reason : String) :
      Option String × String :=
    match candidates with
    | [] => (none, finish_reason)
    | candidate :: _ =>
      if finish_reason ∈ blockedReasons then (none, finish_reason)
      else
        let texts :=
          candidate.parts.filterMap fun p =>
            p.bind fun t => if t = "" then none else some t
        if finish_reason = "MAX_TOKENS" ∧ texts.isEmpty then (none, finish_reason)
        else if texts.isEmpty then (none, finish_reason)
        else (some (String.intercalate "\n" texts), finish_reason)

/-- The fixed message _call_model returns when the final finish_reason is
MAX_TOKENS and no text was recovered. -/
def maxTokensApology : String :=
  "Не удалось сгенерировать ответ из-за ограничения по длине. Попробуйте задать вопрос короче."

/-- _call_model from src/ai_service.py, parameterised by the outcome of
each of its (up to three) underlying calls: c0 the initial call, c1 the
expanded-budget retry taken after a MAX_TOKENS finish, c2 the
context-free retry taken when retry_without_context is set.  Prompt
truncation and token-budget arithmetic only shape the prompts of those
calls and do not affect which branch runs, so they are not repeated
here. -/
def callModel (retry_without_context : Bool)
    (c0 c1 c2 : Except Unit GenResponse) : Option String :=
  let r0 := syncCall c0
  match r0.1 with
  | some t => some t
  | none =>
    let finish_reason := normalizeFinishReason (some (.str r0.2))
    let afterMaxRetry : Option String :=
      if finish_reason = "MAX_TOKENS" then (syncCall c1).1 else none
    match afterMaxRetry with
    | some t => some t
    | none =>
      if retry_without_context then
        let r2 := syncCall c2
        match r2.1 with
        | some t => some t
        | none =>
          let finish_reason2 := normalizeFinishReason (some (.str r2.2))
          if finish_reason2 = "MAX_TOKENS" then some maxTokensApology else none
      else
        if finish_reason = "MAX_TOKENS" then some maxTokensApology else none

/-! ## Stage Pipeline: analyze_intent, extract_structure, make_plan,
review_plan, _ensure_task_deadline_for_calendar, process_user_request.

Each stage takes the Option Json result of _safe_json_loads applied to
the raw model text of its single model invocation; none means the model
returned null or its output did not parse as JSON.  An Except error
models an uncaught Python exception (an attribute access on a non-dict
JSON value), which the orchestrator's outer try/except absorbs. -/

/-- The intent dictionary produced by analyze_intent. -/
structure Intent where
  topic : Json
  intent : Json
  rough_method : Json
  complexity : Json
  confidence : ℚ

/-- The review dictionary produced by review_plan. -/
structure Review where
  quality : ℚ
  problems : Json
  clarify_question : Json

/-- The plan dictionary produced by make_plan and refined by
process_user_request.  original_question is Json.null until the
orchestrator sets it, matching dict.get on the missing key. -/
structure Plan where
  method : String
  params : Json
  user_visible_answer : Json
  confidence : ℚ
  clarify_question : Json
  original_question : Json

/-- analyze_intent from src/ai_service.py: parse failure gives the CHAT
default; a parsed non-dict raises on .get (error); a dict is read field
by field with the source defaults. -/
def analyze_intent (parsed : Option Json) : Except Unit Intent :=
  let chatDefault : Intent :=
    { topic := .str "CHAT", intent := .str "OTHER", rough_method := .str "chat"
      complexity := .str "simple", confidence := mkRat 1 2 }
  match parsed with
  | none => .ok chatDefault
  | some j =>
    if ¬ j.truthy then .ok chatDefault
    else
      match j with
      | .obj fs =>
        .ok { topic := (dictGet fs "topic").getD (.str "OTHER")
              intent := (dictGet fs "intent").getD (.str "OTHER")
              rough_method := (dictGet fs "rough_method").getD (.str "chat")
              complexity := (dictGet fs "complexity").getD (.str "simple")
              confidence := coerce_confidence (dictGetN fs "confidence") (mkRat 1 2) }
      | _ => .error ()

/-- extract_structure from src/ai_service.py: builds the fixed
eleven-field dictionary; tags and assignees are kept only when the model
returned a JSON list; a parsed truthy non-dict raises on .get. -/
def extract_structure (parsed : Option Json) :
    Except Unit (List (String × Json)) :=
  let p := match parsed with
    | some j => if j.truthy then j else Json.obj []
    | none => Json.obj []
  match p with
  | .obj fs =>
    let tags := match dictGetN fs "tags" with
      | .arr xs => Json.arr xs
      | _ => Json.null
    let assignees := match dictGetN fs "assignees" with
      | .arr xs => Json.arr xs
      | _ => Json.null
    .ok [("title", dictGetN fs "title"),
         ("description", dictGetN fs "description"),
         ("due_datetime_local", dictGetN fs "due_datetime_local"),
         ("priority", dictGetN fs "priority"),
         ("tags", tags),
         ("assignees", assignees),
         ("summary", dictGetN fs "summary"),
         ("start_datetime_local", dictGetN fs "start_datetime_local"),
         ("end_datetime_local", dictGetN fs "end_datetime_local"),
         ("all_day", dictGetN fs "all_day"),
         ("body", dictGetN fs "body")]
  | _ => .error ()

/-- The allow-list of plan methods from make_plan. -/
def allowed_methods : List String :=
  ["create_personal_task", "update_personal_task", "list_personal_tasks",
   "create_team_task", "update_team_task", "list_team_tasks",
   "create_or_update_calendar_event", "show_calendar_agenda",
   "write_personal_note", "read_personal_notes", "search_personal_notes",
   "update_personal_note", "delete_personal_note",
   "chat", "clarify", "show_help"]

/-- The deterministic fallback plan of make_plan. -/
def makePlanFallback (user_text : String) : Plan :=
  { method := "chat", params := .obj [("question", .str user_text)]
    user_visible_answer := .null, confidence := mkRat 1 2
    clarify_question := .null, original_question := .null }

/-- The generic clarification question make_plan synthesises for a
clarify plan with no question. -/
def genericClarifyFromPlanner : String :=
  "Мне нужно уточнить детали, чтобы продолжить."

/-- The method normalisation inside make_plan: the model-returned value
is kept only when it is a string on the allow-list, otherwise chat. -/
def planMethodOf (fs : List (String × Json)) : String :=
  match dictGet fs "method" with
  | some (.str s) => if s ∈ allowed_methods then s else "chat"
  | _ => "chat"

/-- make_plan from src/ai_service.py: normalises the model output into a
plan; a method outside the allow-list is coerced to chat; a chat plan
without a truthy question gets the original user text; a parsed truthy
non-dict, or a truthy non-dict params on a chat plan, raises (error). -/
def make_plan (user_text : String) (parsed : Option Json) : Except Unit Plan :=
  match parsed with
  | none => .ok (makePlanFallback user_text)
  | some j =>
    if ¬ j.truthy then .ok (makePlanFallback user_text)
    else
      match j with
      | .obj fs =>
        let method := planMethodOf fs
        let params := pyOr (dictGetN fs "params") (.obj [])
        let user_visible_answer := pyOr (dictGetN fs "user_visible_answer") .null
        let confidence :=
          coerce_confidence (dictGetN fs "confidence")
            (if method = "chat" then mkRat 1 2 else mkRat 7 10)
        let clarify_question := dictGetN fs "clarify_question"
        let clarify_question :=
          if method = "clarify" ∧ ¬ clarify_question.truthy then
            Json.str genericClarifyFromPlanner
          else clarify_question
        if method = "chat" then
          match params with
          | .obj pfs =>
            let params :=
              if (dictGetN pfs "question").truthy then Json.obj pfs
              else Json.obj (dictSet pfs "question" (.str user_text))
            .ok { method, params, user_visible_answer, confidence
                  clarify_question, original_question := .null }
          | _ => .error ()
        else
          .ok { method, params, user_visible_answer, confidence
                clarify_question, original_question := .null }
      | _ => .error ()

/-- review_plan from src/ai_service.py. -/
def review_plan (parsed : Option Json) : Except Unit Review :=
  let neutral : Review := { quality := mkRat 1 2, problems := .arr [], clarify_question := .null }
  match parsed with
  | none => .ok neutral
  | some j =>
    if ¬ j.truthy then .ok neutral
    else
      match j with
      | .obj fs =>
        .ok { quality := coerce_confidence (dictGetN fs "quality") (mkRat 1 2)
              problems := pyOr (dictGetN fs "problems") (.arr [])
              clarify_question := dictGetN fs "clarify_question" }
      | _ => .error ()

/-- _ensure_task_deadline_for_calendar from src/ai_service.py, returning
the (possibly) updated plan.  Python mutates the plan in place; the
returned value is the plan after the call.  An error models the
AttributeError raised when the plan's params is a truthy non-dict and a
deadline is available to copy (the and-condition short-circuits, so a
falsy deadline never touches params). -/
def ensure_task_deadline_for_calendar (plan : Plan)
    (structured : List (String × Json)) : Except Unit Plan :=
  if plan.method ≠ "create_personal_task" ∧ plan.method ≠ "create_team_task" then
    .ok plan
  else
    let params := pyOr plan.params (.obj [])
    let due_dt :=
      pyOr (dictGetN structured "due_datetime") (dictGetN structured "due_datetime_local")
    if due_dt.truthy then
      match params with
      | .obj pfs =>
        if ¬ (dictGetN pfs "due_datetime").truthy then
          .ok { plan with params := .obj (dictSet pfs "due_datetime" due_dt) }
        else .ok plan
      | _ => .error ()
    else .ok plan

/-! ## Orchestrator: free_chat fallback and process_user_request. -/

/-- The fixed apology free_chat returns when the model yields no text. -/
def freeChatApology : String :=
  "Сейчас у меня не получается получить ответ от модели, но я продолжу помогать с задачами и напоминаниями. Попробуйте переформулировать вопрос проще."

/-- free_chat from src/ai_service.py, parameterised by the text its model
invocation produced: the model text when truthy, the apology otherwise. -/
def free_chat_reply (modelText : Option String) : String :=
  match modelText with
  | some t => if t = "" then freeChatApology else t
  | none => freeChatApology

/-- The guaranteed fallback plan of process_user_request. -/
def fallback_plan (user_text : String) : Plan :=
  { method := "chat", params := .obj [("question", .str user_text)]
    user_visible_answer := .null, confidence := mkRat 3 10
    clarify_question := .null, original_question := .str user_text }

/-- The generic clarification text of the low-quality dispatcher branch
(also the dispatcher's own clarify fallback in execute_plan). -/
def genericClarifyFromReview : String :=
  "Я не уверен, что правильно понял запрос. Уточните, пожалуйста."

/-- The model responses feeding one run of process_user_request: the
parsed output of each pipeline stage's model invocation and the raw text
of the free_chat invocation taken on the CHAT short-circuit. -/
structure PipelineEnv where
  intentParsed : Option Json
  structuredParsed : Option Json
  planParsed : Option Json
  reviewParsed : Option Json
  freeChatText : Option String

/-- The threshold logic at the tail of process_user_request, applied to
the reviewed plan (original_question already set). -/
def applyQualityGates (user_text : String) (intent : Intent) (plan : Plan)
    (review : Review) : Plan :=
  let quality := review.quality
  let clarify_question := review.clarify_question
  if coerce_confidence (.num intent.confidence) 0 < mkRat 3 10
      ∨ plan.method = ""
      ∨ coerce_confidence (.num quality) 0 < mkRat 3 10 then
    fallback_plan user_text
  else if quality < mkRat 1 2 then
    { method := "clarify", params := .obj []
      user_visible_answer :=
        pyOr clarify_question (.str genericClarifyFromReview)
      confidence := quality, clarify_question := clarify_question
      original_question := .str user_text }
  else if mkRat 1 2 ≤ quality ∧ quality < mkRat 4 5 ∧ clarify_question.truthy then
    { method := "clarify", params := .obj []
      user_visible_answer := clarify_question
      confidence := quality, clarify_question := clarify_question
      original_question := .str user_text }
  else plan

/-- The body of process_user_request inside its try block.  The
plan.setdefault call is a no-op because make_plan always emits a params
key; an error is any uncaught exception, which the except clause of
process_user_request converts to the fallback plan. -/
def processCore (env : PipelineEnv) (user_text context_text : String) :
    Except Unit Plan :=
  match analyze_intent env.intentParsed with
  | .error e => .error e
  | .ok intent =>
    if intent.topic.eqStr "CHAT" then
      .ok { method := "chat"
            params := .obj [("question", .str user_text),
                            ("context_text", .str context_text)]
            user_visible_answer := .str (free_chat_reply env.freeChatText)
            confidence := 1, clarify_question := .null
            original_question := .str user_text }
    else
      match extract_structure env.structuredParsed with
      | .error e => .error e
      | .ok structured =>
        match make_plan user_text env.planParsed with
        | .error e => .error e
        | .ok plan =>
          match ensure_task_deadline_for_calendar plan structured with
          | .error e => .error e
          | .ok plan =>
            let plan := { plan with original_question := .str user_text }
            match review_plan env.reviewParsed with
            | .error e => .error e
            | .ok review => .ok (applyQualityGates user_text intent plan review)

/-- process_user_request from src/ai_service.py: the core body with its
except clause returning the guaranteed fallback plan. -/
def process_user_request (env : PipelineEnv) (user_text context_text : String) :
    Plan :=
  match processCore env user_text context_text with
  | .ok plan => plan
  | .error _ => fallback_plan user_text

/-! ## Confidence-gated dispatcher: execute_plan from
src/command_service.py. -/

/-- The keys of METHOD_MAP in src/command_service.py. -/
def METHOD_MAP_keys : List String :=
  ["write_personal_note", "read_personal_notes", "search_personal_notes",
   "update_personal_note", "delete_personal_note",
   "create_personal_task", "update_personal_task", "list_personal_tasks",
   "create_team_task", "update_team_task", "list_team_tasks",
   "create_or_update_calendar_event", "show_calendar_agenda",
   "show_help", "debug_on", "debug_off", "debug_status", "chat"]

/-- The observable outcome of execute_plan that the claims speak about:
either an early return that invokes no capability handler (the fast chat
path or the clarify path, each carrying its answer), or the invocation
of exactly one handler, identified by its METHOD_MAP key (an unknown
method routes to the chat handler). -/
inductive ExecOutcome where
  | fastChat : Json → ExecOutcome
  | clarifyAnswer : Json → ExecOutcome
  | invoked : String → ExecOutcome

/-- execute_plan from src/command_service.py, up to the single handler
invocation: the branch structure deciding whether and which METHOD_MAP
handler runs.  The handler's own result, the debug suffix and the action
log do not affect which handler is invoked and are outside the claims,
so they are not modelled.  The dead re-defaulting branch for a falsy
method (unreachable after the or-chat on the previous line) is folded
into that or. -/
def execute_plan (plan : Plan) : ExecOutcome :=
  let method := if plan.method ≠ "" then plan.method else "chat"
  if method = "chat" ∧ plan.user_visible_answer.truthy then
    .fastChat plan.user_visible_answer
  else if method = "clarify" ∨ plan.clarify_question.truthy then
    .clarifyAnswer
      (pyOr (pyOr plan.clarify_question plan.user_visible_answer)
        (.str genericClarifyFromReview))
  else
    .invoked (if method ∈ METHOD_MAP_keys then method else "chat")

/-! ## Theorems for the claims -/

/-- Length of the truncating branch: for a budget of at least 8 the
result is exactly max_chars characters long. -/
theorem truncate_length_of_lt (text : String) (m : ℕ) (h8 : 8 ≤ m)
    (hlt : m < text.length) : (truncate_text text m).length = m := by
  have hlen : ¬ text.length ≤ m := by omega
  have hdata : text.data.length = text.length := rfl
  have ht : (2 : ℤ) ≤ ((m / 3 : ℕ) : ℤ) := by
    have h2 : 2 ≤ m / 3 := by omega
    exact_mod_cast h2
  have htm : ((m / 3 : ℕ) : ℤ) * 3 ≤ (m : ℤ) := by
    have h3 : m / 3 * 3 ≤ m := by omega
    exact_mod_cast h3
  unfold truncate_text
  rw [if_neg hlen]
  dsimp only
  rcases le_total (1000 : ℤ) ((m / 3 : ℕ) : ℤ) with hc | hc
  · rw [min_eq_left hc, if_neg (by omega)]
    simp only [pyTake, pySuffixFrom]
    rw [if_pos (by omega)]
    simp only [String.length_append, String.length_mk, List.length_take,
      List.length_drop]
    have h5 : ("\n...\n" : String).length = 5 := rfl
    rw [h5, hdata]
    omega
  · rw [min_eq_right hc, if_neg (by omega)]
    simp only [pyTake, pySuffixFrom]
    rw [if_pos (by omega)]
    simp only [String.length_append, String.length_mk, List.length_take,
      List.length_drop]
    have h5 : ("\n...\n" : String).length = 5 := rfl
    rw [h5, hdata]
    omega

/-- C2: the claim as frozen is false: for max_chars = 1 and the input
"ab" the Text Budgeter returns the bare five-character separator, whose
length exceeds the budget. -/
theorem C2_counterexample :
    (truncate_text "ab" 1).length = 5 ∧ ¬ (truncate_text "ab" 1).length ≤ 1 := by
  constructor
  · rfl
  · decide

/-- C2 (amended): the budget bound len(truncate_text(text, max_chars)) ≤
max_chars holds for every max_chars ≥ 8 (for budgets 1..7 the head/tail
arithmetic can go negative and the bound fails); the identity on inputs
that already fit holds for every budget. -/
theorem C2_truncate_text_budget (text : String) (max_chars : ℕ) :
    (8 ≤ max_chars → (truncate_text text max_chars).length ≤ max_chars) ∧
    (text.length ≤ max_chars → truncate_text text max_chars = text) := by
  constructor
  · intro h8
    by_cases hfit : text.length ≤ max_chars
    · unfold truncate_text
      rw [if_pos hfit]
      exact hfit
    · rw [truncate_length_of_lt text max_chars h8 (by omega)]
  · intro hfit
    unfold truncate_text
    rw [if_pos hfit]

/-- Witness for C2_truncate_text_budget at a concrete input. -/
theorem C2_truncate_text_budget_witness :
    (truncate_text "abcdefghijklmnop" 8).length ≤ 8 ∧
      truncate_text "hello" 8 = "hello" :=
  ⟨(C2_truncate_text_budget "abcdefghijklmnop" 8).1 (by decide),
   (C2_truncate_text_budget "hello" 8).2 (by decide)⟩

/-- The candidate-inspection path returns null whenever the normalised
finish_reason is a blocked reason, whatever the candidate parts hold. -/
theorem noDirectText_blocked (cs : List Candidate) (fr : String)
    (h : fr ∈ blockedReasons) :
    syncCall.syncCallNoDirectText cs fr = (none, fr) := by
  cases cs with
  | nil => rfl
  | cons c rest => simp [syncCall.syncCallNoDirectText, h]

/-- C5: when the underlying generate_content call raises at every step it
is executed, _sync_call records a NONE finish condition with a null
result, and _call_model returns null for either value of
retry_without_context; in this embedding both functions are total, so no
exception reaches the caller. -/
theorem C5_underlying_exceptions_absorbed :
    syncCall (.error ()) = (none, "NONE") ∧
    ∀ retry_without_context : Bool,
      callModel retry_without_context (.error ()) (.error ()) (.error ()) = none := by
  refine ⟨rfl, ?_⟩
  intro b
  cases b <;> rfl

/-- C6: a single underlying call whose normalised finish condition is a
blocked reason and whose response.text accessor yields no truthy text
returns null: text sitting in the blocked candidate's content parts is
never surfaced. -/
theorem C6_blocked_candidate_not_surfaced (response : GenResponse)
    (hblock :
      normalizeFinishReason (response.candidates.head?.bind Candidate.finish_reason)
        ∈ blockedReasons)
    (htext : ∀ t, response.text = .ok (some t) → t = "") :
    (syncCall (.ok response)).1 = none := by
  obtain ⟨cands, tx⟩ := response
  simp only at hblock htext
  cases tx with
  | error e =>
    simp only [syncCall, noDirectText_blocked cands _ hblock]
  | ok o =>
    cases o with
    | none =>
      simp only [syncCall, noDirectText_blocked cands _ hblock]
    | some t =>
      have ht : t = "" := htext t rfl
      subst ht
      simp only [syncCall, ne_eq, not_true_eq_false, if_false, reduceIte,
        noDirectText_blocked cands _ hblock]

/-- Witness for C6 at a concrete blocked response: the SAFETY candidate
carries a textual part, response.text raises, and the call yields null. -/
theorem C6_blocked_candidate_not_surfaced_witness :
    (syncCall (.ok ⟨[⟨some (.int 3), [some "скрытый текст"]⟩], .error ()⟩)).1 = none :=
  C6_blocked_candidate_not_surfaced ⟨[⟨some (.int 3), [some "скрытый текст"]⟩], .error ()⟩
    (by decide) (by intro t h; cases h)

/-- C4: the claim as frozen is false: a run in which every attempt fails
to recover text (initial call and expanded-budget retry both finish as
MAX_TOKENS with no usable text, no context-free retry requested) makes
_call_model return a fixed synthesized apology string instead of null. -/
theorem C4_counterexample :
    (syncCall (.ok ⟨[⟨some (.int 2), []⟩], .error ()⟩)).1 = none ∧
    callModel false (.ok ⟨[⟨some (.int 2), []⟩], .error ()⟩)
        (.ok ⟨[⟨some (.int 2), []⟩], .error ()⟩)
        (.ok ⟨[⟨some (.int 2), []⟩], .error ()⟩) = some maxTokensApology ∧
    some maxTokensApology ≠ (none : Option String) := by
  refine ⟨rfl, rfl, ?_⟩
  intro h
  cases h

/-- C4 (amended): when every executed attempt of the retry ladder fails
to recover text, _call_model returns null unless the finish condition it
holds at the end (the no-context retry's when that retry ran, the
initial call's otherwise) is MAX_TOKENS, in which case it returns the
fixed apology string rather than model text. -/
theorem C4_call_model_no_text_characterised (retry_without_context : Bool)
    (c0 c1 c2 : Except Unit GenResponse)
    (h0 : (syncCall c0).1 = none) (h1 : (syncCall c1).1 = none)
    (h2 : (syncCall c2).1 = none) :
    callModel retry_without_context c0 c1 c2 =
      if normalizeFinishReason
          (some (.str (syncCall (if retry_without_context then c2 else c0)).2))
          = "MAX_TOKENS"
      then some maxTokensApology else none := by
  cases retry_without_context <;>
    simp only [callModel, h0, h1, h2, if_true, if_false, Bool.false_eq_true,
      ite_self, reduceIte]

/-- Witness for C4_call_model_no_text_characterised with every call
raising. -/
theorem C4_call_model_no_text_characterised_witness :
    callModel false (.error ()) (.error ()) (.error ()) =
      if normalizeFinishReason
          (some (.str (syncCall (if false then .error () else .error ())).2))
          = "MAX_TOKENS"
      then some maxTokensApology else none :=
  C4_call_model_no_text_characterised false (.error ()) (.error ()) (.error ())
    rfl rfl rfl

/-- The question entry of a plan's params dictionary. -/
def Plan.paramsQuestion (p : Plan) : Option Json :=
  match p.params with
  | .obj fs => dictGet fs "question"
  | _ => none

/-- C1: the claim as frozen is false: when every model invocation fails
(all stage inputs null, free_chat recovering no text), analyze_intent
defaults the topic to CHAT, so process_user_request takes the free-chat
short-circuit and returns a chat plan with confidence 1, not the
guaranteed default plan with confidence 0.3. -/
theorem C1_counterexample :
    (process_user_request ⟨none, none, none, none, none⟩ "привет" "контекст").confidence
      = 1 ∧
    (fallback_plan "привет").confidence = mkRat 3 10 ∧ (1 : ℚ) ≠ mkRat 3 10 := by
  refine ⟨rfl, rfl, by decide⟩

/-- C1 (amended): when every model invocation fails, process_user_request
returns, without raising, the free-chat plan: method chat, params
holding the original question (and the context text), the deterministic
apology string as the user-visible answer, and confidence 1 — not the
0.3-confidence fallback plan, which is reserved for low-confidence gates
and uncaught exceptions. -/
theorem C1_all_model_calls_null (user_text context_text : String) :
    process_user_request ⟨none, none, none, none, none⟩ user_text context_text =
      { method := "chat"
        params := .obj [("question", .str user_text),
                        ("context_text", .str context_text)]
        user_visible_answer := .str freeChatApology
        confidence := 1, clarify_question := .null
        original_question := .str user_text } := rfl

/-- C7: whenever the intent stage's (coerced) confidence is below 0.3,
the final plan of process_user_request has method chat and carries the
original user text as params.question, whatever the downstream stages
produced: the CHAT short-circuit yields a chat plan, and every other
path is forced into the guaranteed fallback by the first dispatcher
gate. -/
theorem C7_low_intent_confidence_forces_chat (env : PipelineEnv)
    (user_text context_text : String) (intent : Intent)
    (hA : analyze_intent env.intentParsed = .ok intent)
    (hconf : coerce_confidence (.num intent.confidence) 0 < mkRat 3 10) :
    (process_user_request env user_text context_text).method = "chat" ∧
    (process_user_request env user_text context_text).paramsQuestion
      = some (.str user_text) := by
  unfold process_user_request processCore
  rw [hA]
  by_cases hT : intent.topic.eqStr "CHAT"
  · simp [hT, Plan.paramsQuestion, dictGet]
  · simp only [hT, Bool.false_eq_true, if_false, reduceIte]
    cases hS : extract_structure env.structuredParsed with
    | error e => simp [fallback_plan, Plan.paramsQuestion, dictGet]
    | ok structured =>
      cases hP : make_plan user_text env.planParsed with
      | error e => simp [fallback_plan, Plan.paramsQuestion, dictGet]
      | ok plan0 =>
        cases hE : ensure_task_deadline_for_calendar plan0 structured with
        | error e => simp [hE, fallback_plan, Plan.paramsQuestion, dictGet]
        | ok plan1 =>
          cases hR : review_plan env.reviewParsed with
          | error e => simp [hE, hR, fallback_plan, Plan.paramsQuestion, dictGet]
          | ok review =>
            simp only [hE, hR, applyQualityGates, hconf, true_or, if_true, reduceIte]
            simp [fallback_plan, Plan.paramsQuestion, dictGet]

/-- Witness for C7 at a concrete run: intent confidence 0.2, confident
downstream plan and review. -/
theorem C7_low_intent_confidence_forces_chat_witness :
    (process_user_request
        ⟨some (.obj [("topic", .str "PERSONAL_TASK"), ("confidence", .num (mkRat 2 10))]),
         none,
         some (.obj [("method", .str "create_personal_task"),
                     ("confidence", .num (mkRat 9 10))]),
         some (.obj [("quality", .num (mkRat 9 10))]),
         none⟩ "задача" "ctx").method = "chat" ∧
    (process_user_request
        ⟨some (.obj [("topic", .str "PERSONAL_TASK"), ("confidence", .num (mkRat 2 10))]),
         none,
         some (.obj [("method", .str "create_personal_task"),
                     ("confidence", .num (mkRat 9 10))]),
         some (.obj [("quality", .num (mkRat 9 10))]),
         none⟩ "задача" "ctx").paramsQuestion = some (.str "задача") :=
  C7_low_intent_confidence_forces_chat _ "задача" "ctx"
    { topic := .str "PERSONAL_TASK", intent := .str "OTHER"
      rough_method := .str "chat", complexity := .str "simple"
      confidence := coerce_confidence (.num (mkRat 2 10)) (mkRat 1 2) }
    rfl (by decide)

/-- C8: a request that reaches the quality gates (topic not CHAT, every
stage returning normally, intent confidence past 0.3, a non-empty
method) with review quality in [0.3, 0.5) ends as a clarify plan whose
user-visible answer is the review's clarify question when that is
truthy, and the fixed generic clarification prompt otherwise. -/
theorem C8_low_quality_becomes_clarify (env : PipelineEnv)
    (user_text context_text : String) (intent : Intent)
    (structured : List (String × Json)) (plan0 plan1 : Plan) (review : Review)
    (hA : analyze_intent env.intentParsed = .ok intent)
    (hT : intent.topic.eqStr "CHAT" = false)
    (hS : extract_structure env.structuredParsed = .ok structured)
    (hP : make_plan user_text env.planParsed = .ok plan0)
    (hE : ensure_task_deadline_for_calendar plan0 structured = .ok plan1)
    (hR : review_plan env.reviewParsed = .ok review)
    (hIconf : ¬ coerce_confidence (.num intent.confidence) 0 < mkRat 3 10)
    (hM : plan1.method ≠ "")
    (hQlo : mkRat 3 10 ≤ review.quality)
    (hQhi : review.quality < mkRat 1 2) :
    process_user_request env user_text context_text =
      { method := "clarify", params := .obj []
        user_visible_answer :=
          pyOr review.clarify_question (.str genericClarifyFromReview)
        confidence := review.quality
        clarify_question := review.clarify_question
        original_question := .str user_text } := by
  have h0 : (0 : ℚ) ≤ review.quality :=
    le_trans (by decide : (0 : ℚ) ≤ mkRat 3 10) hQlo
  have h1 : review.quality ≤ 1 :=
    le_of_lt (lt_of_lt_of_le hQhi (by decide : (mkRat 1 2 : ℚ) ≤ 1))
  have hco : coerce_confidence (.num review.quality) 0 = review.quality := by
    show max 0 (min 1 review.quality) = review.quality
    rw [min_eq_right h1, max_eq_right h0]
  have hQc : ¬ coerce_confidence (.num review.quality) 0 < mkRat 3 10 := by
    rw [hco]
    exact not_lt.mpr hQlo
  unfold process_user_request processCore
  rw [hA]
  simp only [hT, Bool.false_eq_true, if_false, reduceIte, hS, hP, hE, hR]
  simp only [applyQualityGates]
  rw [if_neg (by simp [hIconf, hQc, hM]), if_pos hQhi]

/-- Witness for C8 at a concrete run: review quality 0.45 and clarify
question present. -/
theorem C8_low_quality_becomes_clarify_witness :
    process_user_request
        ⟨some (.obj [("topic", .str "PERSONAL_TASK"), ("confidence", .num (mkRat 9 10))]),
         none,
         some (.obj [("method", .str "create_personal_task"),
                     ("confidence", .num (mkRat 9 10))]),
         some (.obj [("quality", .num (mkRat 45 100)),
                     ("clarify_question", .str "Когда дедлайн?")]),
         none⟩ "задача" "ctx" =
      { method := "clarify", params := .obj []
        user_visible_answer :=
          pyOr (.str "Когда дедлайн?") (.str genericClarifyFromReview)
        confidence := mkRat 45 100
        clarify_question := .str "Когда дедлайн?"
        original_question := .str "задача" } :=
  C8_low_quality_becomes_clarify _ "задача" "ctx"
    { topic := .str "PERSONAL_TASK", intent := .str "OTHER"
      rough_method := .str "chat", complexity := .str "simple"
      confidence := coerce_confidence (.num (mkRat 9 10)) (mkRat 1 2) }
    [("title", .null), ("description", .null), ("due_datetime_local", .null),
     ("priority", .null), ("tags", .null), ("assignees", .null),
     ("summary", .null), ("start_datetime_local", .null),
     ("end_datetime_local", .null), ("all_day", .null), ("body", .null)]
    { method := "create_personal_task", params := .obj []
      user_visible_answer := .null
      confidence := coerce_confidence (.num (mkRat 9 10)) (mkRat 7 10)
      clarify_question := .null, original_question := .null }
    { method := "create_personal_task", params := .obj []
      user_visible_answer := .null
      confidence := coerce_confidence (.num (mkRat 9 10)) (mkRat 7 10)
      clarify_question := .null, original_question := .null }
    { quality := mkRat 45 100, problems := .arr []
      clarify_question := .str "Когда дедлайн?" }
    rfl rfl rfl rfl rfl rfl (by decide) (by decide) (by decide) (by decide)

/-- Looking up a key immediately after dict-setting it yields the stored
value. -/
theorem dictGet_dictSet_self (fs : List (String × Json)) (k : String) (v : Json) :
    dictGet (dictSet fs k v) k = some v := by
  unfold dictSet
  by_cases h : fs.any (fun p => p.1 = k) = true
  · rw [if_pos h]
    revert h
    induction fs with
    | nil =>
      intro h
      simp at h
    | cons p rest ih =>
      intro h
      rw [List.map_cons]
      by_cases hp : p.1 = k
      · rw [if_pos hp]
        show (if k = k then some v else _) = some v
        rw [if_pos rfl]
      · rw [if_neg hp]
        show (if p.1 = k then some p.2
              else dictGet (rest.map fun p => if p.1 = k then (k, v) else p) k)
          = some v
        rw [if_neg hp]
        apply ih
        simp only [List.any_cons, Bool.or_eq_true, decide_eq_true_eq] at h
        rcases h with h | h
        · exact absurd h hp
        · exact h
  · rw [if_neg h]
    revert h
    induction fs with
    | nil =>
      intro h
      show (if k = k then some v else dictGet [] k) = some v
      rw [if_pos rfl]
    | cons p rest ih =>
      intro h
      simp only [List.any_cons, Bool.or_eq_true, decide_eq_true_eq] at h
      push_neg at h
      show (if p.1 = k then some p.2 else dictGet (rest ++ [(k, v)]) k) = some v
      rw [if_neg h.1]
      exact ih (by simpa using h.2)

/-- The question value inside the model-returned params of the Plan-stage
output (null when the output, or its params, is not a dictionary). -/
def modelParamsQuestion (parsed : Option Json) : Json :=
  match parsed with
  | some (.obj fs) =>
    match pyOr (dictGetN fs "params") (.obj []) with
    | .obj pfs => dictGetN pfs "question"
    | _ => .null
  | _ => .null

/-- C9: the claim as frozen is false: when the model returns the
non-allow-listed method drop_all_tasks together with params already
holding a truthy question, make_plan coerces the method to chat but
keeps the model-supplied question, which differs from the original user
text. -/
theorem C9_counterexample :
    (match make_plan "оригинальный текст"
        (some (.obj [("method", .str "drop_all_tasks"),
                     ("params", .obj [("question", .str "другой текст")])])) with
     | .ok p => p.method = "chat" ∧ p.paramsQuestion = some (.str "другой текст")
     | .error _ => False) ∧
    ("другой текст" : String) ≠ "оригинальный текст" :=
  ⟨⟨rfl, rfl⟩, by decide⟩

/-- C9 (amended): every plan make_plan returns normally has a method in
the allow-list (absent or unknown model methods are coerced to chat),
and a coerced chat plan's params.question equals the original user text
whenever the model-returned params did not already carry a truthy
question of their own (which is preserved instead). -/
theorem C9_method_always_allow_listed (user_text : String)
    (parsed : Option Json) (plan : Plan)
    (h : make_plan user_text parsed = .ok plan) :
    plan.method ∈ allowed_methods ∧
    (plan.method = "chat" → (modelParamsQuestion parsed).truthy = false →
      plan.paramsQuestion = some (.str user_text)) := by
  have hchatmem : "chat" ∈ allowed_methods := by decide
  have hmem : ∀ fs, planMethodOf fs ∈ allowed_methods := by
    intro fs
    unfold planMethodOf
    cases hdm : dictGet fs "method" with
    | none => exact hchatmem
    | some mj =>
      cases mj with
      | str s =>
        dsimp only
        by_cases hs : s ∈ allowed_methods
        · rw [if_pos hs]
          exact hs
        · rw [if_neg hs]
          exact hchatmem
      | null => exact hchatmem
      | bool b => exact hchatmem
      | num q => exact hchatmem
      | arr xs => exact hchatmem
      | obj gs => exact hchatmem
  cases parsed with
  | none =>
    cases h
    exact ⟨hchatmem, fun _ _ => rfl⟩
  | some j =>
    by_cases hj : j.truthy
    · cases j with
      | obj fs =>
        rw [make_plan] at h
        simp only [hj, not_true_eq_false, if_false, reduceIte] at h
        by_cases hchat : planMethodOf fs = "chat"
        · rw [if_pos hchat] at h
          cases hpp : pyOr (dictGetN fs "params") (.obj []) with
          | obj pfs =>
            rw [hpp] at h
            dsimp only at h
            by_cases hq : (dictGetN pfs "question").truthy
            · rw [if_pos hq] at h
              cases h
              refine ⟨hmem fs, fun _ hfalse => ?_⟩
              rw [modelParamsQuestion, hpp] at hfalse
              rw [hq] at hfalse
              cases hfalse
            · rw [if_neg hq] at h
              cases h
              exact ⟨hmem fs,
                fun _ _ => dictGet_dictSet_self pfs "question" (.str user_text)⟩
          | null => rw [hpp] at h; exact Except.noConfusion h
          | bool b => rw [hpp] at h; exact Except.noConfusion h
          | num q => rw [hpp] at h; exact Except.noConfusion h
          | str s => rw [hpp] at h; exact Except.noConfusion h
          | arr xs => rw [hpp] at h; exact Except.noConfusion h
        · rw [if_neg hchat] at h
          cases h
          exact ⟨hmem fs, fun hc _ => absurd hc hchat⟩
      | null => simp [Json.truthy] at hj
      | bool b =>
        rw [make_plan.eq_def] at h
        dsimp only at h
        rw [if_neg (by simp [hj])] at h
        exact Except.noConfusion h
      | num q =>
        rw [make_plan.eq_def] at h
        dsimp only at h
        rw [if_neg (by simp [hj])] at h
        exact Except.noConfusion h
      | str s =>
        rw [make_plan.eq_def] at h
        dsimp only at h
        rw [if_neg (by simp [hj])] at h
        exact Except.noConfusion h
      | arr xs =>
        rw [make_plan.eq_def] at h
        dsimp only at h
        rw [if_neg (by simp [hj])] at h
        exact Except.noConfusion h
    · rw [make_plan.eq_def] at h
      dsimp only at h
      rw [if_pos hj] at h
      cases h
      exact ⟨hchatmem, fun _ _ => rfl⟩

/-- Witness for C9_method_always_allow_listed: the model answers with an
unknown method and no params, so the chat coercion installs the original
text as the question. -/
theorem C9_method_always_allow_listed_witness :
    ({ method := "chat", params := .obj [("question", .str "исходный запрос")]
       user_visible_answer := .null, confidence := mkRat 1 2
       clarify_question := .null, original_question := .null } : Plan).method
        ∈ allowed_methods ∧
    (({ method := "chat", params := .obj [("question", .str "исходный запрос")]
        user_visible_answer := .null, confidence := mkRat 1 2
        clarify_question := .null, original_question := .null } : Plan).method = "chat" →
      (modelParamsQuestion (some (.obj [("method", .str "drop_all_tasks")]))).truthy = false →
      ({ method := "chat", params := .obj [("question", .str "исходный запрос")]
         user_visible_answer := .null, confidence := mkRat 1 2
         clarify_question := .null, original_question := .null } : Plan).paramsQuestion
        = some (.str "исходный запрос")) :=
  C9_method_always_allow_listed "исходный запрос"
    (some (.obj [("method", .str "drop_all_tasks")])) _ rfl

/-- C3: the claim as frozen is false: a plan that passes every gate with
review quality 0.9 is returned as-is by process_user_request, but when
the plan itself carries a truthy clarify_question (here put there by the
Plan-stage model output), execute_plan answers with that question on its
clarify path and invokes no capability handler at all. -/
theorem C3_counterexample :
    process_user_request
        ⟨some (.obj [("topic", .str "PERSONAL_TASK"), ("confidence", .num (mkRat 9 10))]),
         none,
         some (.obj [("method", .str "create_personal_task"),
                     ("params", .obj [("title", .str "Отчёт")]),
                     ("confidence", .num (mkRat 9 10)),
                     ("clarify_question", .str "Когда дедлайн?")]),
         some (.obj [("quality", .num (mkRat 9 10))]),
         none⟩ "сделай задачу" "ctx" =
      { method := "create_personal_task"
        params := .obj [("title", .str "Отчёт")]
        user_visible_answer := .null, confidence := mkRat 9 10
        clarify_question := .str "Когда дедлайн?"
        original_question := .str "сделай задачу" } ∧
    execute_plan
      { method := "create_personal_task"
        params := .obj [("title", .str "Отчёт")]
        user_visible_answer := .null, confidence := mkRat 9 10
        clarify_question := .str "Когда дедлайн?"
        original_question := .str "сделай задачу" } =
      .clarifyAnswer (.str "Когда дедлайн?") ∧
    ∀ m, ExecOutcome.clarifyAnswer (.str "Когда дедлайн?") ≠ .invoked m :=
  ⟨rfl, rfl, fun _ h => ExecOutcome.noConfusion h⟩

/-- C3 (amended): a request that reaches the quality gates with review
quality at least 0.8 and a non-chat, non-clarify METHOD_MAP method is
returned as-is by process_user_request and, provided the plan carries no
truthy clarify_question of its own, execute_plan reaches the handler
table and invokes exactly that method's capability handler. -/
theorem C3_high_quality_plan_executed (env : PipelineEnv)
    (user_text context_text : String) (intent : Intent)
    (structured : List (String × Json)) (plan0 plan1 : Plan) (review : Review)
    (hA : analyze_intent env.intentParsed = .ok intent)
    (hT : intent.topic.eqStr "CHAT" = false)
    (hS : extract_structure env.structuredParsed = .ok structured)
    (hP : make_plan user_text env.planParsed = .ok plan0)
    (hE : ensure_task_deadline_for_calendar plan0 structured = .ok plan1)
    (hR : review_plan env.reviewParsed = .ok review)
    (hIconf : ¬ coerce_confidence (.num intent.confidence) 0 < mkRat 3 10)
    (hM : plan1.method ≠ "")
    (hQ : mkRat 4 5 ≤ review.quality)
    (hMem : plan1.method ∈ METHOD_MAP_keys)
    (hNotChat : plan1.method ≠ "chat")
    (hNotClarify : plan1.method ≠ "clarify")
    (hClar : plan1.clarify_question.truthy = false) :
    process_user_request env user_text context_text =
      { plan1 with original_question := .str user_text } ∧
    execute_plan { plan1 with original_question := .str user_text } =
      .invoked plan1.method := by
  have h45 : (mkRat 4 5 : ℚ) ≤ min 1 review.quality :=
    le_min (by decide) hQ
  have hQc : ¬ coerce_confidence (.num review.quality) 0 < mkRat 3 10 := by
    show ¬ max 0 (min 1 review.quality) < mkRat 3 10
    exact not_lt.mpr
      (le_trans (by decide : (mkRat 3 10 : ℚ) ≤ mkRat 4 5)
        (le_trans h45 (le_max_right _ _)))
  have hQhalf : ¬ review.quality < mkRat 1 2 :=
    not_lt.mpr (le_trans (by decide : (mkRat 1 2 : ℚ) ≤ mkRat 4 5) hQ)
  have hQmid : ¬ review.quality < mkRat 4 5 := not_lt.mpr hQ
  constructor
  · unfold process_user_request processCore
    rw [hA]
    simp only [hT, Bool.false_eq_true, if_false, reduceIte, hS, hP, hE, hR]
    simp only [applyQualityGates]
    rw [if_neg (by simp [hIconf, hQc, hM]), if_neg hQhalf,
      if_neg (by simp [hQmid])]
  · unfold execute_plan
    simp only [hM, ne_eq, not_false_eq_true, if_true, reduceIte]
    rw [if_neg (by simp [hNotChat]), if_neg (by simp [hNotClarify, hClar]),
      if_pos hMem]

/-- Witness for C3_high_quality_plan_executed at a concrete clean run:
quality 0.9, method create_personal_task, no clarify question. -/
theorem C3_high_quality_plan_executed_witness :
    process_user_request
        ⟨some (.obj [("topic", .str "PERSONAL_TASK"), ("confidence", .num (mkRat 9 10))]),
         none,
         some (.obj [("method", .str "create_personal_task"),
                     ("params", .obj [("title", .str "Отчёт")]),
                     ("confidence", .num (mkRat 9 10))]),
         some (.obj [("quality", .num (mkRat 9 10))]),
         none⟩ "сделай задачу" "ctx" =
      { method := "create_personal_task"
        params := .obj [("title", .str "Отчёт")]
        user_visible_answer := .null
        confidence := coerce_confidence (.num (mkRat 9 10)) (mkRat 7 10)
        clarify_question := .null
        original_question := .str "сделай задачу" } ∧
    execute_plan
      { method := "create_personal_task"
        params := .obj [("title", .str "Отчёт")]
        user_visible_answer := .null
        confidence := coerce_confidence (.num (mkRat 9 10)) (mkRat 7 10)
        clarify_question := .null
        original_question := .str "сделай задачу" } =
      .invoked "create_personal_task" :=
  C3_high_quality_plan_executed _ "сделай задачу" "ctx"
    { topic := .str "PERSONAL_TASK", intent := .str "OTHER"
      rough_method := .str "chat", complexity := .str "simple"
      confidence := coerce_confidence (.num (mkRat 9 10)) (mkRat 1 2) }
    [("title", .null), ("description", .null), ("due_datetime_local", .null),
     ("priority", .null), ("tags", .null), ("assignees", .null),
     ("summary", .null), ("start_datetime_local", .null),
     ("end_datetime_local", .null), ("all_day", .null), ("body", .null)]
    { method := "create_personal_task", params := .obj [("title", .str "Отчёт")]
      user_visible_answer := .null
      confidence := coerce_confidence (.num (mkRat 9 10)) (mkRat 7 10)
      clarify_question := .null, original_question := .null }
    { method := "create_personal_task", params := .obj [("title", .str "Отчёт")]
      user_visible_answer := .null
      confidence := coerce_confidence (.num (mkRat 9 10)) (mkRat 7 10)
      clarify_question := .null, original_question := .null }
    { quality := mkRat 9 10, problems := .arr [], clarify_question := .null }
    rfl rfl rfl rfl rfl rfl (by decide) (by decide) (by decide) (by decide)
    (by decide) (by decide) rfl

/-- C10: _ensure_task_deadline_for_calendar touches the plan only for the
two task-creation methods, and then only when the structured fields hold
a truthy deadline (due_datetime, else due_datetime_local) while the
plan's params carry none: in exactly that case the deadline is copied
into params.due_datetime, every other field of the plan staying as it
was; on every other method, and whenever the deadline condition fails,
the plan is returned unchanged.  Present and absent are read as Python
truthiness, as the source tests them. -/
theorem C10_ensure_deadline_frame (plan : Plan)
    (structured : List (String × Json)) :
    (plan.method ≠ "create_personal_task" → plan.method ≠ "create_team_task" →
      ensure_task_deadline_for_calendar plan structured = .ok plan) ∧
    ((pyOr (dictGetN structured "due_datetime")
        (dictGetN structured "due_datetime_local")).truthy = false →
      ensure_task_deadline_for_calendar plan structured = .ok plan) ∧
    (∀ pfs, pyOr plan.params (.obj []) = .obj pfs →
      (dictGetN pfs "due_datetime").truthy = true →
      ensure_task_deadline_for_calendar plan structured = .ok plan) ∧
    (∀ pfs, pyOr plan.params (.obj []) = .obj pfs →
      (dictGetN pfs "due_datetime").truthy = false →
      (pyOr (dictGetN structured "due_datetime")
        (dictGetN structured "due_datetime_local")).truthy = true →
      (plan.method = "create_personal_task" ∨ plan.method = "create_team_task") →
      ensure_task_deadline_for_calendar plan structured =
        .ok { plan with params := .obj (dictSet pfs "due_datetime"
          (pyOr (dictGetN structured "due_datetime")
            (dictGetN structured "due_datetime_local"))) }) := by
  unfold ensure_task_deadline_for_calendar
  refine ⟨?_, ?_, ?_, ?_⟩
  · intro h1 h2
    rw [if_pos ⟨h1, h2⟩]
  · intro hdue
    by_cases hm : plan.method ≠ "create_personal_task" ∧ plan.method ≠ "create_team_task"
    · rw [if_pos hm]
    · rw [if_neg hm]
      dsimp only
      rw [if_neg (by simp [hdue])]
  · intro pfs hpp hq
    by_cases hm : plan.method ≠ "create_personal_task" ∧ plan.method ≠ "create_team_task"
    · rw [if_pos hm]
    · rw [if_neg hm]
      dsimp only
      by_cases hdue :
        (pyOr (dictGetN structured "due_datetime")
          (dictGetN structured "due_datetime_local")).truthy = true
      · rw [if_pos hdue, hpp]
        dsimp only
        rw [if_neg (by simp [hq])]
      · rw [if_neg hdue]
  · intro pfs hpp hq hdue hmeth
    rw [if_neg (by rcases hmeth with h | h <;> simp [h])]
    dsimp only
    rw [if_pos hdue, hpp]
    dsimp only
    rw [if_pos (by simp [hq])]

/-- Witness for C10_ensure_deadline_frame: a chat plan is untouched, and
a create_personal_task plan with a structured local deadline and no
params deadline gets exactly that deadline copied in. -/
theorem C10_ensure_deadline_frame_witness :
    ensure_task_deadline_for_calendar
        { method := "chat", params := .obj [("question", .str "привет")]
          user_visible_answer := .null, confidence := 1
          clarify_question := .null, original_question := .null }
        [("due_datetime", .str "2025-09-01T18:00")] =
      .ok { method := "chat", params := .obj [("question", .str "привет")]
            user_visible_answer := .null, confidence := 1
            clarify_question := .null, original_question := .null } ∧
    ensure_task_deadline_for_calendar
        { method := "create_personal_task", params := .obj [("title", .str "Отчёт")]
          user_visible_answer := .null, confidence := 1
          clarify_question := .null, original_question := .null }
        [("due_datetime_local", .str "2025-09-01T18:00")] =
      .ok { method := "create_personal_task"
            params := .obj (dictSet [("title", .str "Отчёт")] "due_datetime"
              (pyOr (dictGetN [("due_datetime_local", .str "2025-09-01T18:00")] "due_datetime")
                (dictGetN [("due_datetime_local", .str "2025-09-01T18:00")] "due_datetime_local")))
            user_visible_answer := .null, confidence := 1
            clarify_question := .null, original_question := .null } :=
  ⟨(C10_ensure_deadline_frame _ _).1 (by decide) (by decide),
   (C10_ensure_deadline_frame _ _).2.2.2 [("title", .str "Отчёт")] rfl rfl rfl
     (Or.inl rfl)⟩

end PlanZada
